import Mathlib

/-!
Verification of the libscapi offline Malicious-Yao protocol (party 2) and the
OpenSSL symmetric-encryption wrapper against their specification.

The development shallowly embeds the two source headers:
* `src/include/mid_layer/OpenSSLSymmetricEnc.hpp` — the `OpenSSLEncWithIVAbs`
  hierarchy and `OpenSSLCTREncRandomIV` (inline bodies embedded directly from
  the source).
* `src/protocols/MaliciousYao/lib/include/OfflineOnline/specs/OfflineProtocolP2.hpp`
  — a header of declarations only; the method bodies are absent from the
  repository snapshot, so those operations are modelled from the specification
  text, as noted in each doc comment.
-/

/- ### Symmetric encryption data model -/

/-- Generic algorithm parameters, accepted by the unsupported key-generation
entry point. The source treats the value as fully opaque (it is never
inspected); one abstract field keeps the type inhabited and distinguishable. -/
structure AlgorithmParameterSpec where
  tag : Nat
deriving DecidableEq, Repr

/-- A secret key, holding its encoded byte sequence (each entry one byte). -/
structure SecretKey where
  encoded : List Nat
deriving DecidableEq, Repr

/-- Error outcomes of the symmetric-encryption operations, mirroring the
exception kinds the source throws. -/
inductive SymEncError where
  | unsupportedOperationException (msg : String)
  | illegalStateException
  | illegalArgumentException
deriving DecidableEq, Repr

/-- A ciphertext together with the IV used to produce it (class IVCiphertext);
the IV is modelled as the initial counter block. -/
structure IVCiphertext where
  iv : Nat
  data : List Nat
deriving DecidableEq, Repr

namespace OpenSSLEncWithIVAbs

/-- Embeds `OpenSSLEncWithIVAbs::generateKey(AlgorithmParameterSpec*)`
(OpenSSLSymmetricEnc.hpp lines 65-67): the body unconditionally throws
UnsupportedOperationException. -/
def generateKeyFromSpec (_keyParams : AlgorithmParameterSpec) :
    Except SymEncError SecretKey :=
  .error (.unsupportedOperationException
    "To generate a key for this encryption object use the generateKey(int keySize) function")

/-- Modelled from the spec: `generateKey(int keySize)` "generates a secret key
to initialize the underlying PRP object", with `keySize` the required key size
in bits; the body lives outside the repository snapshot. Randomness is
abstracted as a byte source `rnd`; the key holds `keySize / 8` drawn bytes. -/
def generateKey (rnd : Nat → Nat) (keySize : Nat) : Except SymEncError SecretKey :=
  .ok ⟨(List.range (keySize / 8)).map (fun i => rnd i % 256)⟩

/-- Modelled from the spec: the scheme's mutable state is the optional secret
key installed by `setKey`; `encrypt`/`decrypt` demand that a key was set
("IllegalStateException if no secret key was set"). The key is abstracted to
the value fed to the underlying PRP. -/
structure EncState where
  key : Option Nat
deriving DecidableEq, Repr

/-- Modelled from the spec: the CTR keystream — the underlying pseudorandom
permutation `prp` applied under `key` to successive counter blocks starting at
the IV, truncated to bytes. `encryptOpenSSL`/`decryptOpenSSL` bodies are
absent from the snapshot; this follows the documented randomized counter-mode
behaviour of `OpenSSLCTREncRandomIV`. -/
def ctrKeystream (prp : Nat → Nat → Nat) (key iv len : Nat) : List Nat :=
  (List.range len).map (fun i => prp key (iv + i) % 256)

/-- Modelled from the spec: counter-mode encryption of a byte sequence — XOR
the plaintext with the keystream and package the result with the IV used
(`encrypt(Plaintext*, vector<byte> iv)` returns "an IVCiphertext, which
contains the IV used and the encrypted data"). -/
def encryptCTR (prp : Nat → Nat → Nat) (key : Nat) (plaintext : List Nat)
    (iv : Nat) : IVCiphertext :=
  ⟨iv, List.zipWith Nat.xor plaintext (ctrKeystream prp key iv plaintext.length)⟩

/-- Modelled from the spec: `encrypt` on the scheme state — fails with
IllegalStateException when no key was set, otherwise counter-mode encrypts. -/
def encrypt (prp : Nat → Nat → Nat) (st : EncState) (plaintext : List Nat)
    (iv : Nat) : Except SymEncError IVCiphertext :=
  match st.key with
  | none => .error .illegalStateException
  | some k => .ok (encryptCTR prp k plaintext iv)

/-- Modelled from the spec: `decrypt` — fails with IllegalStateException when
no key was set, otherwise XORs the ciphertext data with the keystream
regenerated from the ciphertext's own IV. -/
def decrypt (prp : Nat → Nat → Nat) (st : EncState) (c : IVCiphertext) :
    Except SymEncError (List Nat) :=
  match st.key with
  | none => .error .illegalStateException
  | some k => .ok (List.zipWith Nat.xor c.data (ctrKeystream prp k c.iv c.data.length))

end OpenSSLEncWithIVAbs

/-- The OpenSSL block-cipher objects `OpenSSLCTREncRandomIV::setKey` can select
(EVP_aes_128_ctr, EVP_aes_192_ctr, EVP_aes_256_ctr). -/
inductive EvpCipher where
  | aes128ctr
  | aes192ctr
  | aes256ctr
deriving DecidableEq, Repr

/-- The cipher configuration `setKey` installs into the native encryption and
decryption contexts. `none` models the local `cipher` variable being left
uninitialized when the switch falls through its empty default branch. -/
structure CTRCipherState where
  encCipher : Option EvpCipher
  decCipher : Option EvpCipher
deriving DecidableEq, Repr

namespace OpenSSLCTREncRandomIV

/-- Embeds `OpenSSLCTREncRandomIV::checkExistance` (OpenSSLSymmetricEnc.hpp
lines 120-124): returns true exactly when the given prp name is "AES". -/
def checkExistance (prpName : String) : Bool :=
  if prpName == "AES" then true else false

/-- Embeds `OpenSSLCTREncRandomIV::setKey` (OpenSSLSymmetricEnc.hpp lines
145-167): `len` is the key's bit length (`key.size() * 8`); the switch on
`len` selects the AES-CTR cipher for 128, 192 and 256 and does nothing in its
default branch, after which the (possibly uninitialized) cipher is passed to
EVP_EncryptInit and EVP_DecryptInit. No error is ever raised. -/
def setKey (secretKey : SecretKey) : CTRCipherState :=
  let key := secretKey.encoded
  let len := key.length * 8
  let cipher : Option EvpCipher :=
    if len = 128 then some .aes128ctr
    else if len = 192 then some .aes192ctr
    else if len = 256 then some .aes256ctr
    else none
  { encCipher := cipher, decCipher := cipher }

end OpenSSLCTREncRandomIV

/- ### Offline Malicious-Yao protocol, party 2 -/

/-- Modelled from the spec: ExecutionParameters — "static description of one
circuit execution (counts of checked/evaluated circuits, input/output wire
counts, statistical security parameter)"; the class itself is outside the
snapshot. Immutable, read-only after construction. -/
structure ExecutionParameters where
  numCircuitsToCheck : Nat
  numCircuitsToEvaluate : Nat
  statisticalParameter : Nat
  inputSizeX : Nat
  inputSizeY : Nat
  outputSize : Nat
deriving DecidableEq, Repr

/-- Modelled from the spec: the execution's total circuit count — cut-and-choose
"generates numCircuitsToCheck + numCircuitsToEvaluate circuit bundles". -/
def ExecutionParameters.totalCircuitCount (e : ExecutionParameters) : Nat :=
  e.numCircuitsToCheck + e.numCircuitsToEvaluate

/-- Modelled from the spec: KProbeResistantMatrix — "a binary matrix of
dimensions (n rows x columns derived from n and s)"; the class is outside the
snapshot. Stored as its list of rows. -/
structure KProbeResistantMatrix where
  entries : List (List Bool)
deriving DecidableEq, Repr

/-- Row count of a probe-resistant matrix. -/
def KProbeResistantMatrix.rows (m : KProbeResistantMatrix) : Nat :=
  m.entries.length

/-- Modelled from the spec: the column count derived from n and s. The spec
fixes no closed formula, only that it is a deterministic function of n and s;
this concrete derivation stands in for it (the claims depend only on the row
count). -/
def probeResistantMatrixCols (n s : Nat) : Nat :=
  n + 2 * s

/-- Modelled from the spec: `selectAndSendProbeResistantMatrix(int n, int s)` —
"creates a probe resistant matrix with n rows", a "deterministic combinatorial
construction — not a secret-dependent choice"; sending it to the peer has no
effect on the returned value. The concrete entry pattern stands in for the
unspecified combinatorial construction. -/
def selectAndSendProbeResistantMatrixNS (n s : Nat) : KProbeResistantMatrix :=
  ⟨(List.range n).map (fun i =>
    (List.range (probeResistantMatrixCols n s)).map (fun j => (i + j) % 2 = 0))⟩

/-- Modelled from the spec: `selectAndSendProbeResistantMatrix(execution)` —
"derives row count n from the execution's circuit-count parameter and
statistical parameter s" and calls the parameterized primitive; per the spec's
testable property the row count equals the execution's total circuit count. -/
def selectAndSendProbeResistantMatrix (execution : ExecutionParameters) :
    KProbeResistantMatrix :=
  selectAndSendProbeResistantMatrixNS execution.totalCircuitCount
    execution.statisticalParameter

/-- Modelled from the spec: Bundle — "one concrete garbled circuit instance
plus its input/output key sets"; outside the snapshot. `garbledCircuit`
abstracts the committed garbled function, `randomness` the garbling seed the
builder used (opened for checked circuits). -/
structure Bundle where
  bundleId : Nat
  garbledCircuit : Nat
  randomness : Nat
deriving DecidableEq, Repr

/-- Modelled from the spec: BucketLimitedBundleList — "a capacity-bounded
collection of verified bundles"; outside the snapshot. Each surviving bundle
occupies one bucket; capacity = numCircuitsToEvaluate. -/
structure BucketLimitedBundleList where
  capacity : Nat
  buckets : List Bundle
deriving DecidableEq, Repr

/-- Error outcomes of the offline protocol, mirroring the exception kinds the
header documents (`@throws CheatAttemptException`) and the spec's error
model (InvalidConfiguration detected before any network I/O). -/
inductive ProtocolError where
  | cheatAttemptException
  | invalidConfiguration
deriving DecidableEq, Repr

/-- Modelled from the spec: verification of one opened (checked) bundle —
"opening their randomness and comparing the result against the expected
garbled function". `garble` is the deterministic garbling of a seed; the
check re-garbles the opened randomness and compares. -/
def verifyBundle (garble : Nat → Nat) (b : Bundle) : Bool :=
  garble b.randomness == b.garbledCircuit

/-- Modelled from the spec: the bundles the verifier challenges — the
positions the challenge marks true. -/
def checkedBundles (bundles : List Bundle) (challenge : List Bool) :
    List Bundle :=
  ((bundles.zip challenge).filter (fun p => p.2)).map Prod.fst

/-- Modelled from the spec: the bundles not selected for checking, which
"populate the resulting bucket list". -/
def survivingBundles (bundles : List Bundle) (challenge : List Bool) :
    List Bundle :=
  ((bundles.zip challenge).filter (fun p => !p.2)).map Prod.fst

/-- Modelled from the spec: `runCutAndChooseProtocol` — the builder yields
`numCircuitsToCheck + numCircuitsToEvaluate` bundles; the verifier challenges
a subset of size `numCircuitsToCheck` (the true positions of `challenge`);
any opened bundle failing verification raises CheatAttemptException; the
surviving circuits populate the bucket list of capacity
`numCircuitsToEvaluate`. `inputLabelsY2Size` "must be validated against the
execution parameters before bundle construction begins". The peer-supplied
data (bundles and the unbiased challenge) are explicit inputs. -/
def runCutAndChooseProtocol (garble : Nat → Nat)
    (execution : ExecutionParameters) (bundles : List Bundle)
    (challenge : List Bool) (inputLabelsY2Size : Nat) :
    Except ProtocolError BucketLimitedBundleList :=
  if inputLabelsY2Size > execution.inputSizeY then
    .error .invalidConfiguration
  else if bundles.length ≠ execution.numCircuitsToCheck + execution.numCircuitsToEvaluate then
    .error .invalidConfiguration
  else if challenge.length ≠ bundles.length ∨ challenge.count true ≠ execution.numCircuitsToCheck then
    .error .invalidConfiguration
  else if (checkedBundles bundles challenge).all (verifyBundle garble) then
    .ok ⟨execution.numCircuitsToEvaluate, survivingBundles bundles challenge⟩
  else
    .error .cheatAttemptException

/-- Modelled from the spec: `getSecretSharingLabels(crInputSizeY)` — "returns
indices list, from 1 to crInputSizeY" (header doc), i.e. the label at position
i - 1 is i for i = 1..crInputSizeY. -/
def getSecretSharingLabels (crInputSizeY : Nat) : List Nat :=
  (List.range crInputSizeY).map (fun i => i + 1)

/-- The two circuit executions `run()` sequences, in their fixed order. -/
inductive ExecKind where
  | mainExec
  | cheatingRecovery
deriving DecidableEq, Repr

/-- Observable wire events of one execution, in protocol order: the matrix
description (message 1), the bundle/challenge exchange of cut-and-choose, and
the batch OT messages. -/
inductive ProtocolEvent where
  | matrixSent (kind : ExecKind)
  | challengeExchanged (kind : ExecKind)
  | otMessagesSent (kind : ExecKind)
deriving DecidableEq, Repr

/-- The execution an event belongs to. -/
def ProtocolEvent.execKind : ProtocolEvent → ExecKind
  | .matrixSent k => k
  | .challengeExchanged k => k
  | .otMessagesSent k => k

/-- Modelled from the spec: one execution of the offline phase — "(b) build
and send the probe-resistant matrix sized to the execution's circuit count and
security parameter; (c) run cut-and-choose to obtain a verified bucket list;
(d) run the malicious-OT key-delivery routine". The OT messages are sent only
after cut-and-choose succeeds; a failure ends the execution at once
(`Aborted` is terminal), so no OT event is emitted for it. -/
def runExecution (garble : Nat → Nat) (kind : ExecKind)
    (execution : ExecutionParameters) (bundles : List Bundle)
    (challenge : List Bool) (inputLabelsY2Size : Nat) :
    Except ProtocolError (KProbeResistantMatrix × BucketLimitedBundleList) ×
      List ProtocolEvent :=
  let matrix := selectAndSendProbeResistantMatrix execution
  match runCutAndChooseProtocol garble execution bundles challenge inputLabelsY2Size with
  | .error e => (.error e, [.matrixSent kind, .challengeExchanged kind])
  | .ok buckets =>
    (.ok (matrix, buckets),
      [.matrixSent kind, .challengeExchanged kind, .otMessagesSent kind])

/-- State of `OfflineProtocolP2`: the constructor parameters together with the
artifact members, each a `shared_ptr` the header declares and thus null
(`none`) until `run()` fills it. -/
structure OfflineProtocolP2 where
  mainExecution : ExecutionParameters
  crExecution : ExecutionParameters
  writeToFile : Bool
  mainMatrix : Option KProbeResistantMatrix
  crMatrix : Option KProbeResistantMatrix
  mainBuckets : Option BucketLimitedBundleList
  crBuckets : Option BucketLimitedBundleList
deriving DecidableEq, Repr

/-- Peer-supplied data consumed by the two executions of `run()`: the bundles
the peer garbles and the (unbiased) cut-and-choose challenges. -/
structure AdversaryInputs where
  mainBundles : List Bundle
  mainChallenge : List Bool
  crBundles : List Bundle
  crChallenge : List Bool
deriving DecidableEq, Repr

namespace OfflineProtocolP2

/-- The constructor: sets the execution parameters and flags; the matrix and
bucket members are default-constructed shared pointers, hence null. -/
def mkProtocol (mainExecution crExecution : ExecutionParameters)
    (writeToFile : Bool) : OfflineProtocolP2 :=
  { mainExecution, crExecution, writeToFile,
    mainMatrix := none, crMatrix := none,
    mainBuckets := none, crBuckets := none }

/-- Embeds the accessor `getMainBuckets` (OfflineProtocolP2.hpp line 54). -/
def getMainBuckets (p : OfflineProtocolP2) : Option BucketLimitedBundleList :=
  p.mainBuckets

/-- Embeds the accessor `getCheatingRecoveryBuckets` (line 58). -/
def getCheatingRecoveryBuckets (p : OfflineProtocolP2) :
    Option BucketLimitedBundleList :=
  p.crBuckets

/-- Embeds the accessor `getMainProbeResistantMatrix` (line 62). -/
def getMainProbeResistantMatrix (p : OfflineProtocolP2) :
    Option KProbeResistantMatrix :=
  p.mainMatrix

/-- Embeds the accessor `getCheatingRecoveryProbeResistantMatrix` (line 66). -/
def getCheatingRecoveryProbeResistantMatrix (p : OfflineProtocolP2) :
    Option KProbeResistantMatrix :=
  p.crMatrix

/-- Modelled from the spec: `run()` — "for execution in {main,
cheatingRecovery} in that fixed order: (a) derive secret-sharing labels if the
execution is the cheating-recovery circuit; (b)-(d) as in `runExecution`".
"Fails fatally (aborts the whole run) if cut-and-choose verification fails for
either execution"; on a main-execution failure the cheating-recovery execution
never starts and none of its events appear. On success the artifact members
are filled and returned state exposes them through the accessors. -/
def run (garble : Nat → Nat) (p : OfflineProtocolP2) (inp : AdversaryInputs) :
    Except ProtocolError OfflineProtocolP2 × List ProtocolEvent :=
  match runExecution garble .mainExec p.mainExecution inp.mainBundles
      inp.mainChallenge 0 with
  | (.error e, evs) => (.error e, evs)
  | (.ok (mMatrix, mBuckets), evs1) =>
    let labels := getSecretSharingLabels p.crExecution.inputSizeY
    match runExecution garble .cheatingRecovery p.crExecution inp.crBundles
        inp.crChallenge labels.length with
    | (.error e, evs2) => (.error e, evs1 ++ evs2)
    | (.ok (cMatrix, cBuckets), evs2) =>
      (.ok { p with mainMatrix := some mMatrix, mainBuckets := some mBuckets,
                    crMatrix := some cMatrix, crBuckets := some cBuckets },
        evs1 ++ evs2)

end OfflineProtocolP2

/- ### Helper lemmas -/

/-- Unfolding of `survivingBundles` on a cons: a position challenged true is
dropped, one challenged false is kept. -/
theorem survivingBundles_cons (b : Bundle) (bs : List Bundle) (c : Bool)
    (cs : List Bool) :
    survivingBundles (b :: bs) (c :: cs) =
      if c then survivingBundles bs cs else b :: survivingBundles bs cs := by
  cases c <;> simp [survivingBundles]

/-- Unfolding of `checkedBundles` on a cons. -/
theorem checkedBundles_cons (b : Bundle) (bs : List Bundle) (c : Bool)
    (cs : List Bool) :
    checkedBundles (b :: bs) (c :: cs) =
      if c then b :: checkedBundles bs cs else checkedBundles bs cs := by
  cases c <;> simp [checkedBundles]

/-- The surviving bundles and the challenged positions partition the circuit
count: survivors plus true challenge positions give the challenge length. -/
theorem length_survivingBundles (bundles : List Bundle) (challenge : List Bool)
    (h : challenge.length = bundles.length) :
    (survivingBundles bundles challenge).length + challenge.count true =
      challenge.length := by
  induction bundles generalizing challenge with
  | nil =>
    cases challenge with
    | nil => simp [survivingBundles]
    | cons c cs => simp at h
  | cons b bs ih =>
    cases challenge with
    | nil => simp at h
    | cons c cs =>
      have h' : cs.length = bs.length := by simpa using h
      have hih := ih cs h'
      cases c <;> simp [survivingBundles_cons, List.count_cons] <;> omega

/-- The surviving bundles form a sublist of the generated bundles. -/
theorem survivingBundles_sublist (bundles : List Bundle)
    (challenge : List Bool) :
    (survivingBundles bundles challenge).Sublist bundles := by
  induction bundles generalizing challenge with
  | nil => simp [survivingBundles]
  | cons b bs ih =>
    cases challenge with
    | nil => simp [survivingBundles]
    | cons c cs =>
      rw [survivingBundles_cons]
      cases c
      · simpa using (ih cs).cons₂ b
      · simpa using (ih cs).cons b

/-- XOR-ing twice with the same keystream is the identity on the data. -/
theorem zipWith_xor_cancel :
    ∀ (p ks : List Nat), p.length ≤ ks.length →
      List.zipWith Nat.xor (List.zipWith Nat.xor p ks) ks = p := by
  intro p
  induction p with
  | nil => intro ks h; simp
  | cons a q ih =>
    intro ks h
    cases ks with
    | nil => simp at h
    | cons k ks' =>
      simp only [List.zipWith_cons_cons]
      rw [ih ks' (by simpa using h)]
      congr 1
      show a ^^^ k ^^^ k = a
      rw [Nat.xor_assoc, Nat.xor_self, Nat.xor_zero]

/- ### Claim theorems -/

/-- Claim C3: for every n, `getSecretSharingLabels n` is exactly the ordered
sequence [1, 2, ..., n] (that is, `List.range' 1 n`); in particular at n = 0
it is the empty sequence. -/
theorem getSecretSharingLabels_spec :
    ∀ n : Nat, getSecretSharingLabels n = List.range' 1 n ∧
      getSecretSharingLabels 0 = [] := by
  intro n
  refine ⟨?_, rfl⟩
  rw [List.range'_eq_map_range]
  simp [getSecretSharingLabels, Nat.add_comm]

/-- Claim C4: for every ExecutionParameters value, the matrix produced by
`selectAndSendProbeResistantMatrix` has row count equal to that execution's
total circuit count, the row count being derived (together with the
statistical parameter s) through the parameterized primitive. -/
theorem selectAndSendProbeResistantMatrix_rows :
    ∀ execution : ExecutionParameters,
      (selectAndSendProbeResistantMatrix execution).rows =
        execution.totalCircuitCount ∧
      selectAndSendProbeResistantMatrix execution =
        selectAndSendProbeResistantMatrixNS execution.totalCircuitCount
          execution.statisticalParameter := by
  intro e
  refine ⟨?_, rfl⟩
  simp [selectAndSendProbeResistantMatrix, selectAndSendProbeResistantMatrixNS,
    KProbeResistantMatrix.rows]

/-- Claim C5: the generic key-generation entry point
`generateKey(AlgorithmParameterSpec*)` fails with
UnsupportedOperationException for every argument value, while the explicit
bit-length variant `generateKey(int keySize)` always succeeds. -/
theorem generateKey_spec :
    (∀ keyParams : AlgorithmParameterSpec,
      OpenSSLEncWithIVAbs.generateKeyFromSpec keyParams =
        .error (.unsupportedOperationException
          "To generate a key for this encryption object use the generateKey(int keySize) function")) ∧
    (∀ (rnd : Nat → Nat) (keySize : Nat),
      ∃ k, OpenSSLEncWithIVAbs.generateKey rnd keySize = .ok k) :=
  ⟨fun _ => rfl, fun _ _ => ⟨_, rfl⟩⟩

/-- Claim C8: in `OpenSSLCTREncRandomIV::setKey` the cipher variable is
initialized exactly when the key's bit length is 128, 192 or 256; for every
other key size the switch falls through its empty default branch and the
uninitialized cipher (`none`) is what both EVP_EncryptInit and EVP_DecryptInit
receive — there is no explicit error branch. -/
theorem setKey_cipher_selection :
    ∀ secretKey : SecretKey,
      ((OpenSSLCTREncRandomIV.setKey secretKey).encCipher = none ↔
        ¬(secretKey.encoded.length * 8 = 128 ∨
          secretKey.encoded.length * 8 = 192 ∨
          secretKey.encoded.length * 8 = 256)) ∧
      (OpenSSLCTREncRandomIV.setKey secretKey).decCipher =
        (OpenSSLCTREncRandomIV.setKey secretKey).encCipher := by
  intro k
  refine ⟨?_, rfl⟩
  simp only [OpenSSLCTREncRandomIV.setKey]
  split_ifs with h1 h2 h3 <;> simp_all

/-- Claim C9: with a secret key set, decrypting the IVCiphertext produced by
encrypting a plaintext under any IV returns the plaintext: decrypt is a left
inverse of encrypt under a fixed key. -/
theorem decrypt_encrypt_id :
    ∀ (prp : Nat → Nat → Nat) (key : Nat) (plaintext : List Nat) (iv : Nat),
      OpenSSLEncWithIVAbs.encrypt prp ⟨some key⟩ plaintext iv =
        .ok (OpenSSLEncWithIVAbs.encryptCTR prp key plaintext iv) ∧
      OpenSSLEncWithIVAbs.decrypt prp ⟨some key⟩
        (OpenSSLEncWithIVAbs.encryptCTR prp key plaintext iv) =
          .ok plaintext := by
  intro prp key p iv
  refine ⟨rfl, ?_⟩
  simp only [OpenSSLEncWithIVAbs.decrypt, OpenSSLEncWithIVAbs.encryptCTR]
  have hlen : (List.zipWith Nat.xor p
      (OpenSSLEncWithIVAbs.ctrKeystream prp key iv p.length)).length = p.length := by
    simp [OpenSSLEncWithIVAbs.ctrKeystream]
  rw [hlen]
  rw [zipWith_xor_cancel p _ (by simp [OpenSSLEncWithIVAbs.ctrKeystream])]

/-- Claim C10: `checkExistance` accepts exactly the prp name "AES"; every
other name, including "TripleDES", is rejected for CTR mode. -/
theorem checkExistance_spec :
    (∀ prpName : String,
      OpenSSLCTREncRandomIV.checkExistance prpName = true ↔ prpName = "AES") ∧
    OpenSSLCTREncRandomIV.checkExistance "TripleDES" = false := by
  refine ⟨?_, by decide⟩
  intro s
  by_cases h : s = "AES" <;> simp [OpenSSLCTREncRandomIV.checkExistance, h]

/-- Claim C1: with numCircuitsToCheck = c and numCircuitsToEvaluate = e,
`runCutAndChooseProtocol` returns a bucket list with exactly e entries
whenever all c challenged circuits verify, and raises CheatAttemptException
whenever any challenged circuit fails to match its opened randomness. -/
theorem runCutAndChooseProtocol_spec (garble : Nat → Nat)
    (execution : ExecutionParameters) (bundles : List Bundle)
    (challenge : List Bool) (inputLabelsY2Size : Nat)
    (hy : inputLabelsY2Size ≤ execution.inputSizeY)
    (hlen : bundles.length =
      execution.numCircuitsToCheck + execution.numCircuitsToEvaluate)
    (hch : challenge.length = bundles.length)
    (hcount : challenge.count true = execution.numCircuitsToCheck) :
    ((checkedBundles bundles challenge).all (verifyBundle garble) = true →
      ∃ bl, runCutAndChooseProtocol garble execution bundles challenge
          inputLabelsY2Size = .ok bl ∧
        bl.buckets.length = execution.numCircuitsToEvaluate) ∧
    (∀ b ∈ checkedBundles bundles challenge, verifyBundle garble b = false →
      runCutAndChooseProtocol garble execution bundles challenge
        inputLabelsY2Size = .error .cheatAttemptException) := by
  have h1 : ¬(inputLabelsY2Size > execution.inputSizeY) := by omega
  have h2 : ¬(bundles.length ≠
      execution.numCircuitsToCheck + execution.numCircuitsToEvaluate) := by
    omega
  have h3 : ¬(challenge.length ≠ bundles.length ∨
      challenge.count true ≠ execution.numCircuitsToCheck) := by
    simp [hch, hcount]
  constructor
  · intro hall
    refine ⟨⟨execution.numCircuitsToEvaluate, survivingBundles bundles challenge⟩,
      ?_, ?_⟩
    · simp only [runCutAndChooseProtocol, if_neg h1, if_neg h2, if_neg h3,
        if_pos hall]
    · show (survivingBundles bundles challenge).length =
        execution.numCircuitsToEvaluate
      have := length_survivingBundles bundles challenge hch
      omega
  · intro b hb hfail
    have hnall : ¬((checkedBundles bundles challenge).all (verifyBundle garble) = true) := by
      simp only [List.all_eq_true]
      intro hforall
      have := hforall b hb
      simp [hfail] at this
    simp only [runCutAndChooseProtocol, if_neg h1, if_neg h2, if_neg h3,
      if_neg hnall]

/-- Witness for claim C1: a concrete honest run with c = 1, e = 2 yields a
bucket list of two entries. -/
theorem runCutAndChooseProtocol_spec_witness :
    ∃ bl, runCutAndChooseProtocol (fun r => r + 1) ⟨1, 2, 40, 3, 3, 1⟩
        [⟨0, 11, 10⟩, ⟨1, 21, 20⟩, ⟨2, 31, 30⟩] [true, false, false] 0 =
          .ok bl ∧
      bl.buckets.length = 2 :=
  (runCutAndChooseProtocol_spec (fun r => r + 1) ⟨1, 2, 40, 3, 3, 1⟩
    [⟨0, 11, 10⟩, ⟨1, 21, 20⟩, ⟨2, 31, 30⟩] [true, false, false] 0
    (by decide) (by decide) (by decide) (by decide)).1 (by decide)

/-- Claim C6: a bucket list the cut-and-choose protocol returns satisfies the
invariant — capacity equals numCircuitsToEvaluate, placement happened only
after every challenged circuit passed verification, no bundle appears in more
than one bucket (given distinct generated bundles), and every placed bundle
comes from the generated set. -/
theorem bucketList_invariant (garble : Nat → Nat)
    (execution : ExecutionParameters) (bundles : List Bundle)
    (challenge : List Bool) (inputLabelsY2Size : Nat)
    (bl : BucketLimitedBundleList) (hnodup : bundles.Nodup)
    (hok : runCutAndChooseProtocol garble execution bundles challenge
      inputLabelsY2Size = .ok bl) :
    bl.capacity = execution.numCircuitsToEvaluate ∧
    (checkedBundles bundles challenge).all (verifyBundle garble) = true ∧
    bl.buckets.Nodup ∧
    ∀ b ∈ bl.buckets, b ∈ bundles := by
  unfold runCutAndChooseProtocol at hok
  split_ifs at hok with h1 h2 h3 h4
  injection hok with hbl
  subst hbl
  exact ⟨rfl, h4, (survivingBundles_sublist bundles challenge).nodup hnodup,
    fun b hb => (survivingBundles_sublist bundles challenge).subset hb⟩

/-- Witness for claim C6: a concrete run with c = 1, e = 1 produces the bucket
list with capacity 1 satisfying the invariant. -/
theorem bucketList_invariant_witness :
    BucketLimitedBundleList.capacity ⟨1, [⟨6, 10, 9⟩]⟩ = 1 ∧
    (checkedBundles [⟨5, 8, 7⟩, ⟨6, 10, 9⟩] [true, false]).all
      (verifyBundle (fun r => r + 1)) = true ∧
    (BucketLimitedBundleList.buckets ⟨1, [⟨6, 10, 9⟩]⟩).Nodup ∧
    ∀ b ∈ BucketLimitedBundleList.buckets ⟨1, [⟨6, 10, 9⟩]⟩,
      b ∈ [Bundle.mk 5 8 7, Bundle.mk 6 10 9] :=
  bucketList_invariant (fun r => r + 1) ⟨1, 1, 40, 2, 2, 1⟩
    [⟨5, 8, 7⟩, ⟨6, 10, 9⟩] [true, false] 0 ⟨1, [⟨6, 10, 9⟩]⟩
    (by decide) (by rfl)

/-- Claim C2: when cut-and-choose of the main execution detects cheating,
`run()` ends with the CheatAttemptException outcome, no OT message for the
main execution is ever sent, and every emitted event belongs to the main
execution — the cheating-recovery execution never starts and nothing follows
the abort. -/
theorem run_aborts_on_main_cheat (garble : Nat → Nat)
    (p : OfflineProtocolP2) (inp : AdversaryInputs)
    (hcheat : runCutAndChooseProtocol garble p.mainExecution inp.mainBundles
      inp.mainChallenge 0 = .error .cheatAttemptException) :
    (p.run garble inp).1 = .error .cheatAttemptException ∧
    ProtocolEvent.otMessagesSent .mainExec ∉ (p.run garble inp).2 ∧
    ∀ ev ∈ (p.run garble inp).2, ev.execKind = .mainExec := by
  have h : p.run garble inp = (.error .cheatAttemptException,
      [.matrixSent .mainExec, .challengeExchanged .mainExec]) := by
    unfold OfflineProtocolP2.run runExecution
    rw [hcheat]
  rw [h]
  refine ⟨rfl, by decide, by decide⟩

/-- Witness for claim C2: a peer stub corrupting the one challenged circuit of
the main execution makes `run()` abort with no main OT event and no
cheating-recovery event. -/
theorem run_aborts_on_main_cheat_witness :
    ((OfflineProtocolP2.mkProtocol ⟨1, 1, 40, 2, 2, 1⟩ ⟨1, 1, 40, 2, 2, 1⟩
        false).run (fun r => r + 1) ⟨[⟨0, 99, 10⟩, ⟨1, 21, 20⟩],
        [true, false], [], []⟩).1 = .error .cheatAttemptException ∧
    ProtocolEvent.otMessagesSent .mainExec ∉
      ((OfflineProtocolP2.mkProtocol ⟨1, 1, 40, 2, 2, 1⟩ ⟨1, 1, 40, 2, 2, 1⟩
        false).run (fun r => r + 1) ⟨[⟨0, 99, 10⟩, ⟨1, 21, 20⟩],
        [true, false], [], []⟩).2 ∧
    ∀ ev ∈ ((OfflineProtocolP2.mkProtocol ⟨1, 1, 40, 2, 2, 1⟩
        ⟨1, 1, 40, 2, 2, 1⟩ false).run (fun r => r + 1)
        ⟨[⟨0, 99, 10⟩, ⟨1, 21, 20⟩], [true, false], [], []⟩).2,
      ev.execKind = .mainExec :=
  run_aborts_on_main_cheat (fun r => r + 1)
    (OfflineProtocolP2.mkProtocol ⟨1, 1, 40, 2, 2, 1⟩ ⟨1, 1, 40, 2, 2, 1⟩ false)
    ⟨[⟨0, 99, 10⟩, ⟨1, 21, 20⟩], [true, false], [], []⟩ (by rfl)

/-- Claim C7: on a freshly constructed OfflineProtocolP2 every accessor
returns the null pointer, and after a successful `run()` each accessor returns
the artifact that run produced — the two bucket lists from cut-and-choose and
the two probe-resistant matrices. -/
theorem offlineProtocolP2_accessors (mainE crE : ExecutionParameters)
    (w : Bool) (garble : Nat → Nat) (p : OfflineProtocolP2)
    (inp : AdversaryInputs) (mBl cBl : BucketLimitedBundleList)
    (hmain : runCutAndChooseProtocol garble p.mainExecution inp.mainBundles
      inp.mainChallenge 0 = .ok mBl)
    (hcr : runCutAndChooseProtocol garble p.crExecution inp.crBundles
      inp.crChallenge
      (getSecretSharingLabels p.crExecution.inputSizeY).length = .ok cBl) :
    ((OfflineProtocolP2.mkProtocol mainE crE w).getMainBuckets = none ∧
     (OfflineProtocolP2.mkProtocol mainE crE w).getCheatingRecoveryBuckets = none ∧
     (OfflineProtocolP2.mkProtocol mainE crE w).getMainProbeResistantMatrix = none ∧
     (OfflineProtocolP2.mkProtocol mainE crE w).getCheatingRecoveryProbeResistantMatrix = none) ∧
    ∃ p', (p.run garble inp).1 = .ok p' ∧
      p'.getMainBuckets = some mBl ∧
      p'.getCheatingRecoveryBuckets = some cBl ∧
      p'.getMainProbeResistantMatrix =
        some (selectAndSendProbeResistantMatrix p.mainExecution) ∧
      p'.getCheatingRecoveryProbeResistantMatrix =
        some (selectAndSendProbeResistantMatrix p.crExecution) := by
  refine ⟨⟨rfl, rfl, rfl, rfl⟩, ?_⟩
  have h : p.run garble inp =
      (.ok { p with
          mainMatrix := some (selectAndSendProbeResistantMatrix p.mainExecution),
          mainBuckets := some mBl,
          crMatrix := some (selectAndSendProbeResistantMatrix p.crExecution),
          crBuckets := some cBl },
        [.matrixSent .mainExec, .challengeExchanged .mainExec,
         .otMessagesSent .mainExec, .matrixSent .cheatingRecovery,
         .challengeExchanged .cheatingRecovery,
         .otMessagesSent .cheatingRecovery]) := by
    unfold OfflineProtocolP2.run runExecution
    rw [hmain]
    dsimp only
    rw [hcr]
    rfl
  exact ⟨{ p with
      mainMatrix := some (selectAndSendProbeResistantMatrix p.mainExecution),
      mainBuckets := some mBl,
      crMatrix := some (selectAndSendProbeResistantMatrix p.crExecution),
      crBuckets := some cBl },
    by rw [h], rfl, rfl, rfl, rfl⟩

/-- Witness for claim C7: the end-to-end scenario at concrete parameters — a
fresh protocol's accessors are null, and the accessors after a successful run
expose the produced buckets and matrices. -/
theorem offlineProtocolP2_accessors_witness :
    ∃ p', ((OfflineProtocolP2.mkProtocol ⟨1, 2, 40, 3, 3, 1⟩
        ⟨1, 1, 40, 2, 2, 1⟩ false).run (fun r => r + 1)
        ⟨[⟨0, 11, 10⟩, ⟨1, 21, 20⟩, ⟨2, 31, 30⟩], [true, false, false],
         [⟨3, 41, 40⟩, ⟨4, 51, 50⟩], [true, false]⟩).1 = .ok p' ∧
      p'.getMainBuckets = some ⟨2, [⟨1, 21, 20⟩, ⟨2, 31, 30⟩]⟩ ∧
      p'.getCheatingRecoveryBuckets = some ⟨1, [⟨4, 51, 50⟩]⟩ ∧
      p'.getMainProbeResistantMatrix =
        some (selectAndSendProbeResistantMatrix ⟨1, 2, 40, 3, 3, 1⟩) ∧
      p'.getCheatingRecoveryProbeResistantMatrix =
        some (selectAndSendProbeResistantMatrix ⟨1, 1, 40, 2, 2, 1⟩) :=
  (offlineProtocolP2_accessors ⟨1, 2, 40, 3, 3, 1⟩ ⟨1, 1, 40, 2, 2, 1⟩ false
    (fun r => r + 1)
    (OfflineProtocolP2.mkProtocol ⟨1, 2, 40, 3, 3, 1⟩ ⟨1, 1, 40, 2, 2, 1⟩ false)
    ⟨[⟨0, 11, 10⟩, ⟨1, 21, 20⟩, ⟨2, 31, 30⟩], [true, false, false],
     [⟨3, 41, 40⟩, ⟨4, 51, 50⟩], [true, false]⟩
    ⟨2, [⟨1, 21, 20⟩, ⟨2, 31, 30⟩]⟩ ⟨1, [⟨4, 51, 50⟩]⟩
    (by rfl) (by rfl)).2
